import Mathlib

/-!
Shallow embedding of the data-fetch-and-fallback orchestration layer of the
CloudBusters PM2.5 air-quality frontend.

Embedded source files:
- `FrontEnd/src/services/airQualityAPI.js` (fallback version, concatenated in
  `src/FrontEnd/src/hooks/useAirQuality.js`): the `FALLBACK_DATA` table and the
  `airQualityAPI.getHealth` / `airQualityAPI.getCityData` resolution functions.
- `App.jsx` (in `src/unnamed/part_004`): `getAirQualityRecommendation`,
  `loadCityData`, `handleCityChange` and the confidence rendering.

JSON objects arriving from the network are duck-typed in the source, so every
field that could be absent in a response is modelled as an `Option`.  Numbers
are modelled as rationals.  `import.meta.env.PROD` is a boolean parameter
`prod`, and the module-load-time date string
`new Date().toISOString().split('T')[0]` is a string parameter `today`.
-/

namespace CloudBusters

/-- `weather: { temperature, humidity }` sub-object of a current reading. -/
structure Weather where
  temperature : Option ℚ
  humidity : Option ℚ
deriving DecidableEq, Repr

/-- `current: { pm25, aqi, quality_level, weather }` object of a city bundle. -/
structure CurrentReading where
  pm25 : Option ℚ
  aqi : Option ℚ
  quality_level : Option String
  weather : Option Weather
deriving DecidableEq, Repr

/-- `prediction: { predicted_pm25, tomorrow_pm25, prediction_date, confidence }`. -/
structure Prediction where
  predicted_pm25 : Option ℚ
  tomorrow_pm25 : Option ℚ
  prediction_date : Option String
  confidence : Option ℚ
deriving DecidableEq, Repr

/-- A city data bundle `{ current, prediction }` as stored in
`FALLBACK_DATA.cityData` and as carried in `/api/cities/{name}` responses. -/
structure CityDataBundle where
  current : Option CurrentReading
  prediction : Option Prediction
deriving DecidableEq, Repr

/-- Body of a `/api/cities/{name}` response: `{ success, data, message }`. -/
structure ApiResponse where
  success : Bool
  data : Option CityDataBundle
  message : Option String
deriving DecidableEq, Repr

/-- Body of a `/api/health` response: `{ status, message, mode }`. -/
structure HealthResponse where
  status : String
  message : Option String
  mode : Option String
deriving DecidableEq, Repr

/-- An entry of `FALLBACK_DATA.cities`: `{ id, name }`. -/
structure CityRecord where
  id : String
  name : String
deriving DecidableEq, Repr

/-- Outcome of one `fetch` call as observed by the service code: `ok body`
models a resolved response with `response.ok` true whose JSON body parsed to
`body`; `notOk` models a resolved response with `response.ok` false (the code
then throws `'Network error'` into its own catch); `netFail` models a rejected
fetch (network failure / timeout / unparsable body). -/
inductive FetchOutcome (α : Type) where
  | ok (body : α)
  | notOk
  | netFail
deriving DecidableEq, Repr

/-- `FALLBACK_DATA.cities` from the fallback service. -/
def fallbackCities : List CityRecord :=
  [⟨"1", "Ciudad de México"⟩, ⟨"2", "Nueva York"⟩, ⟨"3", "Los Ángeles"⟩,
   ⟨"4", "Madrid"⟩, ⟨"5", "Londres"⟩, ⟨"6", "Mendoza"⟩, ⟨"7", "Aksu"⟩]

/-- `FALLBACK_DATA.cityData['Ciudad de México']`. -/
def cdmxBundle (today : String) : CityDataBundle :=
  { current := some
      { pm25 := some 38.7, aqi := some 77, quality_level := some "MODERATE",
        weather := some { temperature := some 22, humidity := some 55 } },
    prediction := some
      { predicted_pm25 := some 42.1, tomorrow_pm25 := some 39.8,
        prediction_date := some today, confidence := some 0.87 } }

/-- `FALLBACK_DATA.cityData['Nueva York']`. -/
def nuevaYorkBundle (today : String) : CityDataBundle :=
  { current := some
      { pm25 := some 15.3, aqi := some 45, quality_level := some "GOOD",
        weather := some { temperature := some 18, humidity := some 62 } },
    prediction := some
      { predicted_pm25 := some 18.7, tomorrow_pm25 := some 16.2,
        prediction_date := some today, confidence := some 0.82 } }

/-- `FALLBACK_DATA.cityData['Los Ángeles']`. -/
def losAngelesBundle (today : String) : CityDataBundle :=
  { current := some
      { pm25 := some 45.2, aqi := some 89, quality_level := some "UNHEALTHY FOR SENSITIVE",
        weather := some { temperature := some 24, humidity := some 48 } },
    prediction := some
      { predicted_pm25 := some 49.8, tomorrow_pm25 := some 52.1,
        prediction_date := some today, confidence := some 0.85 } }

/-- `FALLBACK_DATA.cityData['Madrid']`. -/
def madridBundle (today : String) : CityDataBundle :=
  { current := some
      { pm25 := some 32.1, aqi := some 72, quality_level := some "MODERATE",
        weather := some { temperature := some 16, humidity := some 58 } },
    prediction := some
      { predicted_pm25 := some 28.6, tomorrow_pm25 := some 31.4,
        prediction_date := some today, confidence := some 0.79 } }

/-- `FALLBACK_DATA.cityData['Londres']`. -/
def londresBundle (today : String) : CityDataBundle :=
  { current := some
      { pm25 := some 28.9, aqi := some 68, quality_level := some "MODERATE",
        weather := some { temperature := some 14, humidity := some 71 } },
    prediction := some
      { predicted_pm25 := some 25.2, tomorrow_pm25 := some 27.8,
        prediction_date := some today, confidence := some 0.83 } }

/-- `FALLBACK_DATA.cityData['Mendoza']`. -/
def mendozaBundle (today : String) : CityDataBundle :=
  { current := some
      { pm25 := some 8.4, aqi := some 28, quality_level := some "GOOD",
        weather := some { temperature := some 19, humidity := some 45 } },
    prediction := some
      { predicted_pm25 := some 10.8, tomorrow_pm25 := some 9.2,
        prediction_date := some today, confidence := some 0.88 } }

/-- `FALLBACK_DATA.cityData['Aksu']`. -/
def aksuBundle (today : String) : CityDataBundle :=
  { current := some
      { pm25 := some 167.3, aqi := some 225, quality_level := some "HAZARDOUS",
        weather := some { temperature := some 26, humidity := some 35 } },
    prediction := some
      { predicted_pm25 := some 159.7, tomorrow_pm25 := some 174.2,
        prediction_date := some today, confidence := some 0.76 } }

/-- `FALLBACK_DATA.cityData[cityName]`: JavaScript property access on the
object literal, i.e. case-sensitive exact-match lookup by city name, yielding
`none` (undefined) for any other key. -/
def fallbackCityData (today : String) : String → Option CityDataBundle
  | "Ciudad de México" => some (cdmxBundle today)
  | "Nueva York" => some (nuevaYorkBundle today)
  | "Los Ángeles" => some (losAngelesBundle today)
  | "Madrid" => some (madridBundle today)
  | "Londres" => some (londresBundle today)
  | "Mendoza" => some (mendozaBundle today)
  | "Aksu" => some (aksuBundle today)
  | _ => none

/-- `airQualityAPI.getCityData(cityName)` of the fallback service.  In
production mode it resolves from `FALLBACK_DATA.cityData` and throws
`` `No demo data available for ${cityName}` `` when the city is absent.
Otherwise it fetches `/api/cities/{name}`; a resolved ok response's JSON body
is returned verbatim; on any fetch failure it resolves from
`FALLBACK_DATA.cityData`, throwing `` `No fallback data available for
${cityName}` `` when the city is absent.  `Except.error` models a rejected
promise. -/
def getCityData (prod : Bool) (today : String) (f : FetchOutcome ApiResponse)
    (cityName : String) : Except String ApiResponse :=
  if prod then
    match fallbackCityData today cityName with
    | some cityData =>
        .ok { success := true, data := some cityData,
              message := some ("Demo data for " ++ cityName) }
    | none => .error ("No demo data available for " ++ cityName)
  else
    match f with
    | .ok body => .ok body
    | _ =>
        match fallbackCityData today cityName with
        | some cityData =>
            .ok { success := true, data := some cityData,
                  message := some ("Fallback data for " ++ cityName) }
        | none => .error ("No fallback data available for " ++ cityName)

/-- `airQualityAPI.getHealth()` of the fallback service.  In production mode it
returns a hardcoded healthy object; otherwise it fetches `/api/health`,
returning a resolved ok response's JSON body verbatim, and on any fetch
failure returns a hardcoded healthy fallback object.  No branch throws. -/
def getHealth (prod : Bool) (f : FetchOutcome HealthResponse) :
    Except String HealthResponse :=
  if prod then
    .ok { status := "healthy", message := some "Demo mode - using simulated data",
          mode := some "production" }
  else
    match f with
    | .ok body => .ok body
    | _ =>
        .ok { status := "healthy", message := some "Using fallback data",
              mode := some "fallback" }

/-- The record returned by `getAirQualityRecommendation` in `App.jsx`:
`{ level, recommendation, color }`. -/
structure AirQualityRec where
  level : String
  recommendation : String
  color : String
deriving DecidableEq, Repr

/-- `getAirQualityRecommendation(pm25Value)` from `App.jsx`: classification of
a PM2.5 value into a quality level by fixed thresholds, with the advisory text
and the display colour used by the page. -/
def getAirQualityRecommendation (pm25Value : ℚ) : AirQualityRec :=
  if pm25Value ≤ 12 then
    { level := "GOOD",
      recommendation := "Air quality is excellent. Perfect for outdoor activities and exercise.",
      color := "text-green-300" }
  else if pm25Value ≤ 35 then
    { level := "MODERATE",
      recommendation := "Air quality is acceptable. Sensitive individuals should limit prolonged outdoor activity.",
      color := "text-yellow-300" }
  else if pm25Value ≤ 55 then
    { level := "UNHEALTHY FOR SENSITIVE",
      recommendation := "Sensitive groups should avoid outdoor activities. Others can exercise with caution.",
      color := "text-orange-300" }
  else if pm25Value ≤ 150 then
    { level := "UNHEALTHY",
      recommendation := "Everyone should avoid outdoor activities. Close windows and use air purifiers.",
      color := "text-red-300" }
  else
    { level := "HAZARDOUS",
      recommendation := "Health emergency! Stay indoors with windows closed. Avoid all outdoor activities.",
      color := "text-red-400" }

/-- Severity rank of a quality-level string, under the order
GOOD < MODERATE < UNHEALTHY_SENSITIVE < UNHEALTHY < HAZARDOUS (the code's
string for UNHEALTHY_SENSITIVE is `"UNHEALTHY FOR SENSITIVE"`). -/
def severityRank : String → ℕ
  | "GOOD" => 0
  | "MODERATE" => 1
  | "UNHEALTHY FOR SENSITIVE" => 2
  | "UNHEALTHY" => 3
  | "HAZARDOUS" => 4
  | _ => 5

/-- Structural completeness of a weather sub-object: the required numeric
fields of the spec's CurrentReading are present. -/
def Weather.complete (w : Weather) : Bool :=
  w.temperature.isSome && w.humidity.isSome

/-- Structural completeness of a current reading: pm25, aqi, qualityLevel,
temperature and humidity are all present. -/
def CurrentReading.complete (c : CurrentReading) : Bool :=
  c.pm25.isSome && c.aqi.isSome && c.quality_level.isSome &&
    (match c.weather with
     | some w => w.complete
     | none => false)

/-- Structural completeness of a prediction: predictedPm25, predictionDate and
confidence (the spec's required Prediction fields) are all present. -/
def Prediction.complete (p : Prediction) : Bool :=
  p.predicted_pm25.isSome && p.prediction_date.isSome && p.confidence.isSome

/-- Structural completeness of a bundle: both parts present and complete. -/
def CityDataBundle.complete (b : CityDataBundle) : Bool :=
  (match b.current with
   | some c => c.complete
   | none => false) &&
  (match b.prediction with
   | some p => p.complete
   | none => false)

/-- The view state of the main `App` component (`App.jsx`) touched by
city-data loading: `backendStatus`, `airQualityData`, `cities`,
`selectedCity`, `loadingCityData`. -/
structure AppState where
  backendStatus : String
  airQualityData : Option CityDataBundle
  cities : List CityRecord
  selectedCity : String
  loadingCityData : Bool
deriving DecidableEq, Repr

/-- Events on the single JS control thread that touch the `App` view state:
`selectCity name` is the synchronous prefix of `handleCityChange(name)` up to
and including `loadCityData`'s `setLoadingCityData(true)`; `cityResponse name
r` is the completion of the awaited `airQualityAPI.getCityData(name)` promise
inside that `loadCityData(name)` call (`Except.error` a rejected promise),
running the rest of the `try`/`catch`/`finally` body. -/
inductive AppEvent where
  | selectCity (name : String)
  | cityResponse (name : String) (r : Except String ApiResponse)

/-- One step of the `App` view state.  `handleCityChange` sets the selected
city and starts loading.  On completion of `getCityData`, a successful
response stores `cityData.data` via `setAirQualityData`; an unsuccessful or
rejected one only logs; `finally` clears `loadingCityData`.  The handler never
compares the responded city name to the currently selected city. -/
def applyEvent (s : AppState) : AppEvent → AppState
  | .selectCity name => { s with selectedCity := name, loadingCityData := true }
  | .cityResponse _ r =>
    match r with
    | .ok resp =>
        if resp.success then
          { s with airQualityData := resp.data, loadingCityData := false }
        else
          { s with loadingCityData := false }
    | .error _ => { s with loadingCityData := false }

/-- Run a sequence of `App` events from a state, in the order the JS event
loop schedules them. -/
def runApp (s : AppState) (evs : List AppEvent) : AppState :=
  evs.foldl applyEvent s

/-- The AI-confidence percentage derived for display in `App.jsx`:
`airQualityData.prediction?.confidence ? (confidence * 100).toFixed(0) + "%"
: "N/A"`, modelled as the numeric percentage before string formatting, with
`none` for the `"N/A"` branch (JavaScript truthiness also sends confidence 0
to `"N/A"`). -/
def confidenceDisplayPercent (d : Option CityDataBundle) : Option ℚ :=
  match d with
  | none => none
  | some b =>
    match b.prediction with
    | none => none
    | some p =>
      match p.confidence with
      | some c => if c = 0 then none else some (c * 100)
      | none => none

/-- Initial `App` view state, from the `useState` initializers in `App.jsx`. -/
def appInit : AppState :=
  { backendStatus := "Connecting", airQualityData := none, cities := [],
    selectedCity := "Ciudad de México", loadingCityData := false }

/-- A syntactically valid `/api/cities/{name}` response whose bundle is
missing every field: `{ success: true, data: {}, message: undefined }`. -/
def incompleteLiveResponse : ApiResponse :=
  { success := true, data := some { current := none, prediction := none },
    message := none }

/-- A `/api/cities/{name}` response carrying a confidence above 1. -/
def overConfidenceResponse : ApiResponse :=
  { success := true,
    data := some
      { current := none,
        prediction := some
          { predicted_pm25 := some 40, tomorrow_pm25 := none,
            prediction_date := some "2025-10-05", confidence := some 1.5 } },
    message := none }

/-- A `/api/health` body whose status is not `"healthy"`. -/
def degradedHealthBody : HealthResponse :=
  { status := "degraded", message := none, mode := none }

/-- Event schedule in which "Mendoza" is selected, then "Aksu" before
Mendoza's request resolves, and Aksu's response arrives before Mendoza's
stale response. -/
def staleSchedule (today : String) : List AppEvent :=
  [.selectCity "Mendoza", .selectCity "Aksu",
   .cityResponse "Aksu"
     (.ok { success := true, data := some (aksuBundle today), message := none }),
   .cityResponse "Mendoza"
     (.ok { success := true, data := some (mendozaBundle today),
            message := none })]

/-- App state after the initial "Ciudad de México" bundle has loaded. -/
def appWithCdmx (today : String) : AppState :=
  { appInit with airQualityData := some (cdmxBundle today) }

/-- An unsuccessful `/api/cities/{name}` response body. -/
def failedResponse : ApiResponse :=
  { success := false, data := none, message := some "No data available" }

/-- Helper: every bundle stored in `FALLBACK_DATA.cityData` is structurally
complete. -/
theorem fallback_table_complete (today c : String) (b : CityDataBundle)
    (h : fallbackCityData today c = some b) : b.complete = true := by
  unfold fallbackCityData at h
  split at h <;> cases h <;> rfl

/-- C1: if the remote fetch for city `c` fails (non-ok response or rejected
fetch) and `c` has an entry in `FALLBACK_DATA.cityData`, then `getCityData`
resolves successfully with exactly the table's bundle for `c`, marked as
fallback data by its message. -/
theorem fallback_on_fetch_failure (today c : String) (f : FetchOutcome ApiResponse)
    (b : CityDataBundle) (hfail : f = .notOk ∨ f = .netFail)
    (hb : fallbackCityData today c = some b) :
    getCityData false today f c =
      .ok { success := true, data := some b,
            message := some ("Fallback data for " ++ c) } := by
  rcases hfail with h | h <;> subst h <;> simp [getCityData, hb]

/-- Witness for C1 at city "Mendoza" with a rejected fetch: resolution yields
the table's Mendoza entry. -/
theorem fallback_on_fetch_failure_witness :
    getCityData false "2025-10-05" .netFail "Mendoza" =
      .ok { success := true, data := some (mendozaBundle "2025-10-05"),
            message := some "Fallback data for Mendoza" } :=
  fallback_on_fetch_failure "2025-10-05" "Mendoza" .netFail
    (mendozaBundle "2025-10-05") (Or.inr rfl) rfl

/-- C2: if the remote fetch for city `c` fails and `c` has no entry in
`FALLBACK_DATA.cityData` (property lookup is case-sensitive exact match), then
`getCityData` rejects with the no-fallback-data error; in particular it
produces no bundle at all, partial or zeroed. -/
theorem no_fallback_rejects (today c : String) (f : FetchOutcome ApiResponse)
    (hfail : f = .notOk ∨ f = .netFail)
    (hb : fallbackCityData today c = none) :
    getCityData false today f c =
      .error ("No fallback data available for " ++ c) ∧
    ∀ resp : ApiResponse, getCityData false today f c ≠ .ok resp := by
  rcases hfail with h | h <;> subst h <;>
    refine ⟨by simp [getCityData, hb], ?_⟩ <;>
    intro resp hresp <;> simp [getCityData, hb] at hresp

/-- Witness for C2 at the lowercase name "mendoza", absent from the table
because lookup is case-sensitive. -/
theorem no_fallback_rejects_witness :
    getCityData false "2025-10-05" .netFail "mendoza" =
      .error "No fallback data available for mendoza" ∧
    ∀ resp : ApiResponse,
      getCityData false "2025-10-05" .netFail "mendoza" ≠ .ok resp :=
  no_fallback_rejects "2025-10-05" "mendoza" .netFail (Or.inr rfl) rfl

/-- C3: in production/demo mode, resolution for a city present in
`FALLBACK_DATA.cityData` never fails and returns exactly the table's
structurally complete bundle; for "Aksu" the bundle has current pm25 167.3,
quality level HAZARDOUS and predicted pm25 159.7. -/
theorem offline_resolution_total (today c : String) (f : FetchOutcome ApiResponse)
    (b : CityDataBundle) (hb : fallbackCityData today c = some b) :
    (getCityData true today f c =
      .ok { success := true, data := some b,
            message := some ("Demo data for " ++ c) } ∧
     b.complete = true) ∧
    ∃ cur pred,
      getCityData true today f "Aksu" =
        .ok { success := true,
              data := some { current := some cur, prediction := some pred },
              message := some "Demo data for Aksu" } ∧
      cur.pm25 = some 167.3 ∧ cur.quality_level = some "HAZARDOUS" ∧
      pred.predicted_pm25 = some 159.7 := by
  refine ⟨⟨by simp [getCityData, hb], fallback_table_complete today c b hb⟩,
    ⟨(aksuBundle today).current.get (by rfl),
     (aksuBundle today).prediction.get (by rfl), ?_, rfl, rfl, rfl⟩⟩
  simp [getCityData, fallbackCityData, aksuBundle]

/-- Witness for C3 at city "Mendoza" in demo mode with a rejected fetch. -/
theorem offline_resolution_total_witness :
    (getCityData true "2025-10-05" .netFail "Mendoza" =
      .ok { success := true, data := some (mendozaBundle "2025-10-05"),
            message := some "Demo data for Mendoza" } ∧
     (mendozaBundle "2025-10-05").complete = true) ∧
    ∃ cur pred,
      getCityData true "2025-10-05" .netFail "Aksu" =
        .ok { success := true,
              data := some { current := some cur, prediction := some pred },
              message := some "Demo data for Aksu" } ∧
      cur.pm25 = some 167.3 ∧ cur.quality_level = some "HAZARDOUS" ∧
      pred.predicted_pm25 = some 159.7 :=
  offline_resolution_total "2025-10-05" "Mendoza" .netFail
    (mendozaBundle "2025-10-05") rfl

/-- C4: `getAirQualityRecommendation` classifies pm25 value `v` as GOOD when
`v ≤ 12`, MODERATE when `12 < v ≤ 35`, UNHEALTHY FOR SENSITIVE (the spec's
UNHEALTHY_SENSITIVE) when `35 < v ≤ 55`, UNHEALTHY when `55 < v ≤ 150` and
HAZARDOUS when `150 < v`, with each threshold closed at the boundary, e.g.
classify(12) = GOOD. -/
theorem classify_thresholds (v : ℚ) :
    (v ≤ 12 → (getAirQualityRecommendation v).level = "GOOD") ∧
    (12 < v → v ≤ 35 → (getAirQualityRecommendation v).level = "MODERATE") ∧
    (35 < v → v ≤ 55 →
      (getAirQualityRecommendation v).level = "UNHEALTHY FOR SENSITIVE") ∧
    (55 < v → v ≤ 150 → (getAirQualityRecommendation v).level = "UNHEALTHY") ∧
    (150 < v → (getAirQualityRecommendation v).level = "HAZARDOUS") ∧
    (getAirQualityRecommendation 12).level = "GOOD" := by
  unfold getAirQualityRecommendation
  refine ⟨?_, ?_, ?_, ?_, ?_, ?_⟩ <;> intros <;> split_ifs <;>
    first | rfl | linarith

/-- Witness for C4: one pm25 value inside each band, including the closed
boundary at 12. -/
theorem classify_thresholds_witness :
    (getAirQualityRecommendation 12).level = "GOOD" ∧
    (getAirQualityRecommendation 20).level = "MODERATE" ∧
    (getAirQualityRecommendation 40).level = "UNHEALTHY FOR SENSITIVE" ∧
    (getAirQualityRecommendation 100).level = "UNHEALTHY" ∧
    (getAirQualityRecommendation 200).level = "HAZARDOUS" :=
  ⟨(classify_thresholds 12).1 (by norm_num),
   (classify_thresholds 20).2.1 (by norm_num) (by norm_num),
   (classify_thresholds 40).2.2.1 (by norm_num) (by norm_num),
   (classify_thresholds 100).2.2.2.1 (by norm_num) (by norm_num),
   (classify_thresholds 200).2.2.2.2.1 (by norm_num)⟩

/-- C5: the classification is monotonic non-decreasing in pm25 under the
severity order GOOD < MODERATE < UNHEALTHY FOR SENSITIVE < UNHEALTHY <
HAZARDOUS. -/
theorem classify_monotone (v1 v2 : ℚ) (h : v1 ≤ v2) :
    severityRank (getAirQualityRecommendation v1).level ≤
      severityRank (getAirQualityRecommendation v2).level := by
  unfold getAirQualityRecommendation
  split_ifs <;> first | decide | linarith

/-- Witness for C5 at the pair (10, 100). -/
theorem classify_monotone_witness :
    severityRank (getAirQualityRecommendation 10).level ≤
      severityRank (getAirQualityRecommendation 100).level :=
  classify_monotone 10 100 (by norm_num)

/-- C6 counterexample: a successful live response whose bundle is missing
every field is returned verbatim by resolution — it is not structurally
complete and is not substituted by the table's entry for the requested
city. -/
theorem live_passthrough_counterexample :
    getCityData false "2025-10-05" (.ok incompleteLiveResponse) "Mendoza" =
      .ok incompleteLiveResponse ∧
    incompleteLiveResponse.data.map CityDataBundle.complete = some false ∧
    incompleteLiveResponse.data ≠ some (mendozaBundle "2025-10-05") := by
  refine ⟨rfl, rfl, by decide⟩

/-- C6 amended: whenever the bundle does not come from a successful remote
response (production mode, non-ok response, or rejected fetch), a successful
resolution's bundle is exactly the Fallback Data Table entry for the city —
the entire bundle is substituted, never a field-by-field merge — and that
bundle is structurally complete.  A successful remote response is returned
verbatim without completeness validation. -/
theorem whole_bundle_substitution (prod : Bool) (today c : String)
    (f : FetchOutcome ApiResponse) (resp : ApiResponse)
    (hnl : prod = true ∨ f = .notOk ∨ f = .netFail)
    (h : getCityData prod today f c = .ok resp) :
    ∃ b, fallbackCityData today c = some b ∧ resp.data = some b ∧
      b.complete = true := by
  cases hcd : fallbackCityData today c with
  | none =>
      exfalso
      have herr : getCityData prod today f c =
          .error ((if prod then "No demo data available for "
                   else "No fallback data available for ") ++ c) := by
        cases prod with
        | false =>
            rcases hnl with hp | hf | hf
            · exact absurd hp (by simp)
            · rw [hf]; simp [getCityData, hcd]
            · rw [hf]; simp [getCityData, hcd]
        | true => simp [getCityData, hcd]
      rw [herr] at h
      exact Except.noConfusion h
  | some b =>
      have hok : getCityData prod today f c =
          .ok { success := true, data := some b,
                message := some ((if prod then "Demo data for "
                                  else "Fallback data for ") ++ c) } := by
        cases prod with
        | false =>
            rcases hnl with hp | hf | hf
            · exact absurd hp (by simp)
            · rw [hf]; simp [getCityData, hcd]
            · rw [hf]; simp [getCityData, hcd]
        | true => simp [getCityData, hcd]
      rw [hok] at h
      injection h with h2
      exact ⟨b, rfl, by rw [← h2], fallback_table_complete today c b hcd⟩

/-- Witness for the C6 amended theorem in demo mode at city "Aksu". -/
theorem whole_bundle_substitution_witness :
    ∃ b, fallbackCityData "2025-10-05" "Aksu" = some b ∧
      ({ success := true, data := some (aksuBundle "2025-10-05"),
         message := some "Demo data for Aksu" } : ApiResponse).data = some b ∧
      b.complete = true :=
  whole_bundle_substitution true "2025-10-05" "Aksu" .netFail
    { success := true, data := some (aksuBundle "2025-10-05"),
      message := some "Demo data for Aksu" } (Or.inl rfl) rfl

/-- C7 counterexample: selecting "Mendoza" then "Aksu" before Mendoza's
request resolves, with Mendoza's response arriving last, ends with "Aksu"
selected but Mendoza's bundle displayed — the stale response is applied, not
discarded. -/
theorem stale_overwrite_counterexample :
    (runApp appInit (staleSchedule "2025-10-05")).selectedCity = "Aksu" ∧
    (runApp appInit (staleSchedule "2025-10-05")).airQualityData =
      some (mendozaBundle "2025-10-05") ∧
    (runApp appInit (staleSchedule "2025-10-05")).airQualityData ≠
      some (aksuBundle "2025-10-05") := by
  refine ⟨rfl, rfl, ?_⟩
  have hval : (runApp appInit (staleSchedule "2025-10-05")).airQualityData =
      some (mendozaBundle "2025-10-05") := rfl
  rw [hval]
  intro hcontra
  have hpm : (mendozaBundle "2025-10-05").current.bind CurrentReading.pm25 =
      (aksuBundle "2025-10-05").current.bind CurrentReading.pm25 := by
    rw [Option.some.inj hcontra]
  rw [show (mendozaBundle "2025-10-05").current.bind CurrentReading.pm25 =
        some 8.4 from rfl,
      show (aksuBundle "2025-10-05").current.bind CurrentReading.pm25 =
        some 167.3 from rfl] at hpm
  have hq : (8.4 : ℚ) = 167.3 := Option.some.inj hpm
  norm_num at hq

/-- C7 amended: responses are applied to view state in arrival order with no
stale-result guard: after selecting `a` then `b`, if `b`'s successful
response arrives before `a`'s successful response, the final state has `b`
selected but displays `a`'s data — last arrival wins, regardless of the
currently selected city. -/
theorem last_arrival_wins (s : AppState) (a b : String) (ra rb : ApiResponse)
    (hra : ra.success = true) (hrb : rb.success = true) :
    runApp s [.selectCity a, .selectCity b, .cityResponse b (.ok rb),
              .cityResponse a (.ok ra)] =
      { s with selectedCity := b, airQualityData := ra.data,
               loadingCityData := false } := by
  obtain ⟨bs, aq, cs, sc, lc⟩ := s
  simp [runApp, applyEvent, hra, hrb]

/-- Witness for the C7 amended theorem on the stale schedule. -/
theorem last_arrival_wins_witness :
    runApp appInit
      [.selectCity "Mendoza", .selectCity "Aksu",
       .cityResponse "Aksu"
         (.ok { success := true, data := some (aksuBundle "2025-10-05"),
                message := none }),
       .cityResponse "Mendoza"
         (.ok { success := true, data := some (mendozaBundle "2025-10-05"),
                message := none })] =
      { appInit with selectedCity := "Aksu",
                     airQualityData := some (mendozaBundle "2025-10-05"),
                     loadingCityData := false } :=
  last_arrival_wins appInit "Mendoza" "Aksu"
    { success := true, data := some (mendozaBundle "2025-10-05"),
      message := none }
    { success := true, data := some (aksuBundle "2025-10-05"),
      message := none } rfl rfl

/-- C8 counterexample: a successful backend response carrying confidence 1.5
is accepted by resolution verbatim — no ValidationError — and the derived
display percentage is 150, outside [0,100]. -/
theorem confidence_out_of_range_displayed :
    getCityData false "2025-10-05" (.ok overConfidenceResponse) "Mendoza" =
      .ok overConfidenceResponse ∧
    ∃ pct, confidenceDisplayPercent overConfidenceResponse.data = some pct ∧
      100 < pct := by
  refine ⟨rfl, 150, ?_, by norm_num⟩
  unfold confidenceDisplayPercent overConfidenceResponse
  norm_num

/-- C8 amended: resolution performs no confidence validation — any successful
live response is returned verbatim, never rejected as a ValidationError — and
only the Fallback Data Table's own confidence values are guaranteed to lie
within [0,1]. -/
theorem confidence_passthrough_table_range (today c : String)
    (resp : ApiResponse) (b : CityDataBundle) (p : Prediction)
    (hb : fallbackCityData today c = some b) (hp : b.prediction = some p) :
    getCityData false today (.ok resp) c = .ok resp ∧
    ∃ conf, p.confidence = some conf ∧ 0 ≤ conf ∧ conf ≤ 1 := by
  refine ⟨rfl, ?_⟩
  unfold fallbackCityData at hb
  split at hb <;> cases hb <;>
    simp only [cdmxBundle, nuevaYorkBundle, losAngelesBundle, madridBundle,
      londresBundle, mendozaBundle, aksuBundle, Option.some.injEq] at hp <;>
    subst hp <;> exact ⟨_, rfl, by norm_num, by norm_num⟩

/-- Witness for the C8 amended theorem at city "Aksu" with the
over-confidence response. -/
theorem confidence_passthrough_table_range_witness :
    getCityData false "2025-10-05" (.ok overConfidenceResponse) "Aksu" =
      .ok overConfidenceResponse ∧
    ∃ conf,
      ({ predicted_pm25 := some 159.7, tomorrow_pm25 := some 174.2,
         prediction_date := some "2025-10-05", confidence := some 0.76 } :
        Prediction).confidence = some conf ∧ 0 ≤ conf ∧ conf ≤ 1 :=
  confidence_passthrough_table_range "2025-10-05" "Aksu" overConfidenceResponse
    (aksuBundle "2025-10-05") _ rfl rfl

/-- C9 counterexample: on a successful fetch, getHealth returns the backend
body verbatim, so a body with status "degraded" makes getHealth resolve with
a status other than "healthy". -/
theorem getHealth_passthrough_counterexample :
    getHealth false (.ok degradedHealthBody) = .ok degradedHealthBody ∧
    degradedHealthBody.status ≠ "healthy" :=
  ⟨rfl, by decide⟩

/-- C9 amended: getHealth is total and never rejects; in production mode and
on any fetch failure it resolves with a hardcoded status "healthy" object; on
a successful fetch outside production it resolves with the backend body
verbatim, whose status may differ from "healthy". -/
theorem getHealth_never_rejects (prod : Bool) (f : FetchOutcome HealthResponse) :
    (∃ r, getHealth prod f = .ok r) ∧
    ((prod = true ∨ f = .notOk ∨ f = .netFail) →
      ∃ r, getHealth prod f = .ok r ∧ r.status = "healthy") ∧
    ∀ body, getHealth false (.ok body) = .ok body := by
  refine ⟨?_, ?_, fun body => rfl⟩
  · cases prod <;> cases f <;> exact ⟨_, rfl⟩
  · intro hcase
    cases prod with
    | true => exact ⟨_, rfl, rfl⟩
    | false =>
        rcases hcase with hp | hf | hf
        · exact absurd hp (by simp)
        · subst hf; exact ⟨_, rfl, rfl⟩
        · subst hf; exact ⟨_, rfl, rfl⟩

/-- Witness for the C9 amended theorem: a failed health fetch outside
production still resolves healthy. -/
theorem getHealth_never_rejects_witness :
    ∃ r, getHealth false .netFail = .ok r ∧ r.status = "healthy" :=
  (getHealth_never_rejects false .netFail).2.1 (Or.inr (Or.inr rfl))

/-- C10: a failed loadCityData (rejected promise, or a response with success
false) leaves airQualityData — and every other field — unchanged, clearing
only loadingCityData; and since handleCityChange sets the selected city
before loading, a failed change to a city leaves that city selected alongside
the previously loaded bundle. -/
theorem failed_load_frame (s : AppState) (name e : String) (resp : ApiResponse)
    (hresp : resp.success = false) :
    applyEvent s (.cityResponse name (.ok resp)) =
      { s with loadingCityData := false } ∧
    applyEvent s (.cityResponse name (.error e)) =
      { s with loadingCityData := false } ∧
    runApp s [.selectCity name, .cityResponse name (.error e)] =
      { s with selectedCity := name, loadingCityData := false } ∧
    runApp s [.selectCity name, .cityResponse name (.ok resp)] =
      { s with selectedCity := name, loadingCityData := false } := by
  obtain ⟨bs, aq, cs, sc, lc⟩ := s
  refine ⟨?_, rfl, rfl, ?_⟩ <;> simp [runApp, applyEvent, hresp]

/-- Witness for C10: a failed change from a state showing the Ciudad de
México bundle to city "Aksu" leaves that bundle displayed with "Aksu"
selected. -/
theorem failed_load_frame_witness :
    applyEvent (appWithCdmx "2025-10-05")
        (.cityResponse "Aksu" (.ok failedResponse)) =
      { appWithCdmx "2025-10-05" with loadingCityData := false } ∧
    applyEvent (appWithCdmx "2025-10-05")
        (.cityResponse "Aksu" (.error "Network error")) =
      { appWithCdmx "2025-10-05" with loadingCityData := false } ∧
    runApp (appWithCdmx "2025-10-05")
        [.selectCity "Aksu", .cityResponse "Aksu" (.error "Network error")] =
      { appWithCdmx "2025-10-05" with selectedCity := "Aksu",
                                      loadingCityData := false } ∧
    runApp (appWithCdmx "2025-10-05")
        [.selectCity "Aksu", .cityResponse "Aksu" (.ok failedResponse)] =
      { appWithCdmx "2025-10-05" with selectedCity := "Aksu",
                                      loadingCityData := false } :=
  failed_load_frame (appWithCdmx "2025-10-05") "Aksu" "Network error"
    failedResponse rfl

end CloudBusters
